import Mathlib

/-!
Verification of the `darts` excerpt: the `RandomForest` wrapper
(`darts/models/forecasting/random_forest.py`) and the probabilistic-models
test module (`darts/tests/test_probabilistic_models.py`).

The shallow embedding models Python values, keyword dictionaries (with
Python's in-place insertion semantics), and a small heap of dictionary
cells so that the aliasing between the constructor parameter `kwargs` and
the attribute `self.kwargs` is represented faithfully.
-/

set_option autoImplicit false

namespace Darts

/-- Python values occurring as keyword-argument values in this excerpt. -/
inductive PyVal where
  | int (n : Int)
  | none
  | bool (b : Bool)
  | str (s : String)
  | obj (className : String)
  deriving DecidableEq, Repr

/-- Python's `Optional[int]` rendered as a `PyVal`
(`None` becomes `PyVal.none`, an integer becomes `PyVal.int`). -/
def PyVal.ofOptInt : Option Int → PyVal
  | Option.none => PyVal.none
  | Option.some n => PyVal.int n

/-- A Python keyword dictionary: keys to values, insertion ordered. -/
abbrev Dict := List (String × PyVal)

/-- `d[k] = v` in Python: overwrite in place when the key is present,
append at the end otherwise. -/
def Dict.insert : Dict → String → PyVal → Dict
  | [], k, v => [(k, v)]
  | (k', v') :: rest, k, v =>
      if k' = k then (k, v) :: rest else (k', v') :: Dict.insert rest k v

/-- `d.get(k)` as an `Option`: first (and only) entry with the key. -/
def Dict.lookup : Dict → String → Option PyVal
  | [], _ => Option.none
  | (k', v') :: rest, k => if k' = k then Option.some v' else Dict.lookup rest k

/-- A reference to a mutable dictionary (a Python object identity). -/
abbrev Ref := Nat

/-- The heap of dictionary objects; a `Ref` indexes into it. -/
abbrev Heap := List Dict

/-- Read the dictionary a reference points to (`[]` for a dangling
reference, which never arises from actual Python code). -/
def Heap.read (h : Heap) (r : Ref) : Dict := List.getD h r []

/-- Overwrite the dictionary a reference points to. -/
def Heap.write (h : Heap) (r : Ref) (d : Dict) : Heap := List.set h r d

/-- Number of allocated cells. -/
def Heap.size (h : Heap) : Nat := List.length h

/-- `lags` / `lags_past_covariates`: `Union[int, List[int]]`
(an integer count or an explicit list of lags). -/
inductive LagsSpec where
  | int (n : Int)
  | list (l : List Int)
  deriving DecidableEq, Repr

/-- `lags_future_covariates`: `Union[Tuple[int, int], List[int]]`
(a `(past, future)` tuple or an explicit list of lags). -/
inductive LagsFutureSpec where
  | tuple (past future : Int)
  | list (l : List Int)
  deriving DecidableEq, Repr

/-- The `sklearn.ensemble.RandomForestRegressor` collaborator, as far as
this excerpt observes it: it is constructed from a keyword dictionary. -/
structure RandomForestRegressor where
  kwargs : Dict
  deriving DecidableEq

/-- The arguments `RandomForest.__init__` passes to
`RegressionModel.__init__` (`super().__init__(...)`). -/
structure SuperArgs where
  lags : Option LagsSpec
  lags_past_covariates : Option LagsSpec
  lags_future_covariates : Option LagsFutureSpec
  model : RandomForestRegressor
  deriving DecidableEq

/-- Python exceptions are identified by their rendering (type and
message); the wrapper never inspects them. -/
abbrev PyErr := String

/-- The attributes `RandomForest.__init__` sets on `self` before
delegating: `self.kwargs` stores the *reference* to the caller's
dictionary, not a copy. -/
structure RFSelf where
  n_estimators : Option Int
  max_depth : Option Int
  kwargs : Ref
  deriving DecidableEq

/-- Default of the `n_estimators` parameter (`Optional[int] = 100`). -/
def RandomForest.n_estimators_default : Option Int := Option.some 100

/-- Default of the `max_depth` parameter (`Optional[int] = None`). -/
def RandomForest.max_depth_default : Option Int := Option.none

/-- The straight-line body of `RandomForest.__init__` up to (and
including) computing the arguments of the `super().__init__` call:

```
self.n_estimators = n_estimators
self.max_depth = max_depth
self.kwargs = kwargs
self.kwargs["n_estimators"] = self.n_estimators
self.kwargs["max_depth"] = self.max_depth
... model=RandomForestRegressor(**kwargs) ...
```

`kwargs` is a reference into the heap; the two subscript assignments go
through `self.kwargs`, which aliases it, and the final `**kwargs`
expansion reads the same reference again. -/
def RandomForest.initCore
    (lags : Option LagsSpec)
    (lags_past_covariates : Option LagsSpec)
    (lags_future_covariates : Option LagsFutureSpec)
    (n_estimators : Option Int) (max_depth : Option Int)
    (kwargs : Ref) (h : Heap) : Heap × RFSelf × SuperArgs :=
  let self0 : RFSelf := ⟨n_estimators, max_depth, kwargs⟩
  let h1 := h.write self0.kwargs
    ((h.read self0.kwargs).insert "n_estimators" (PyVal.ofOptInt self0.n_estimators))
  let h2 := h1.write self0.kwargs
    ((h1.read self0.kwargs).insert "max_depth" (PyVal.ofOptInt self0.max_depth))
  (h2, self0, ⟨lags, lags_past_covariates, lags_future_covariates, ⟨h2.read kwargs⟩⟩)

/-- `RandomForest.__init__`, parameterised by the behaviour of the
`RegressionModel.__init__` collaborator (which may raise, e.g. on an
invalid lag specification). The wrapper installs no handler of its own:
it runs its straight-line body, calls `super().__init__`, and whatever
that call produces determines the outcome. -/
def RandomForest.init {β : Type} (superInit : SuperArgs → Except PyErr β)
    (lags : Option LagsSpec)
    (lags_past_covariates : Option LagsSpec)
    (lags_future_covariates : Option LagsFutureSpec)
    (n_estimators : Option Int) (max_depth : Option Int)
    (kwargs : Ref) (h : Heap) : Except PyErr (Heap × RFSelf × β) :=
  let res := RandomForest.initCore lags lags_past_covariates lags_future_covariates
      n_estimators max_depth kwargs h
  match superInit res.2.2 with
  | Except.error e => Except.error e
  | Except.ok b => Except.ok (res.1, res.2.1, b)

/-- `RandomForest.__str__`, as a function of the rendered (`repr`)
attribute values it interpolates. The f-string is

```
(f"RandomForest(lags={self.lags}, lags_past_covariates={self.lags_past_covariates}, "
 f"lags_historical_covariates={self.lags_historical_covariates}, "
 f"lags_future_covariates={self.lags_future_covariates}, "
 f"n_estimators={self.n_estimators}, max_depth={self.max_depth}")
```

note the absence of a closing parenthesis at the end. -/
def RandomForest.str (lagsRepr lagsPastRepr lagsHistRepr lagsFutureRepr
    nEstimatorsRepr maxDepthRepr : String) : String :=
  "RandomForest(lags=" ++ lagsRepr
    ++ ", lags_past_covariates=" ++ lagsPastRepr ++ ", "
    ++ "lags_historical_covariates=" ++ lagsHistRepr ++ ", "
    ++ "lags_future_covariates=" ++ lagsFutureRepr ++ ", "
    ++ "n_estimators=" ++ nEstimatorsRepr ++ ", max_depth=" ++ maxDepthRepr

/-- Contribution of one character to the parenthesis balance. -/
def chDelta (c : Char) : Int :=
  if c = '(' then 1 else if c = ')' then -1 else 0

/-- Parenthesis balance of a character list: opening minus closing. -/
def parenBal : List Char → Int
  | [] => 0
  | c :: cs => chDelta c + parenBal cs

/-- Minimum parenthesis balance over all prefixes (always `≤ 0` because
of the empty prefix). An opening parenthesis immediately preceding `s`
is matched by some closing parenthesis inside `s` exactly when scanning
`s` the balance dips below zero, i.e. `minBal s < 0`. -/
def minBal : List Char → Int
  | [] => 0
  | c :: cs => min 0 (chDelta c + minBal cs)

/-- A character list is parenthesis-neutral when its total balance is
zero and no prefix dips below zero: every closing parenthesis in it
matches an opening parenthesis in it, and vice versa. This holds for the
renderings of every lag specification and `Optional[int]` value (lists,
tuples, integers, `None`). -/
def parenNeutral (s : List Char) : Prop := parenBal s = 0 ∧ minBal s = 0

instance : DecidablePred parenNeutral := fun s => by
  unfold parenNeutral; infer_instance

/-- Exception classes observed by the test module at import time:
`ImportError` is the only class it catches. -/
inductive PyExc where
  | importError
  | otherExc (rendered : String)
  deriving DecidableEq

/-- Model classes exercised by `test_probabilistic_models.py`. -/
inductive ModelCls where
  | ExponentialSmoothing
  | ARIMA
  | RNNModel
  | TCNModel
  deriving DecidableEq, Repr

/-- One entry of `models_cls_kwargs_errs`: model class, constructor
keyword arguments, and model-specific error bound. -/
structure ModelCase where
  cls : ModelCls
  kwargs : Dict
  err : ℚ
  deriving DecidableEq

/-- The two always-present entries of `models_cls_kwargs_errs`. -/
def baseCases : List ModelCase :=
  [⟨ModelCls.ExponentialSmoothing, [], 4/10⟩,
   ⟨ModelCls.ARIMA,
    [("p", PyVal.int 1), ("d", PyVal.int 0), ("q", PyVal.int 1)], 17/100⟩]

/-- The torch-based entries appended when `TORCH_AVAILABLE`. -/
def torchCases : List ModelCase :=
  [⟨ModelCls.RNNModel,
    [("input_chunk_length", PyVal.int 2), ("training_length", PyVal.int 10),
     ("n_epochs", PyVal.int 20), ("random_state", PyVal.int 0),
     ("likelihood", PyVal.obj "GaussianLikelihoodModel")], 19/10⟩,
   ⟨ModelCls.TCNModel,
    [("input_chunk_length", PyVal.int 10), ("output_chunk_length", PyVal.int 5),
     ("n_epochs", PyVal.int 60), ("random_state", PyVal.int 0),
     ("likelihood", PyVal.obj "GaussianLikelihoodModel")], 28/100⟩]

/-- Module-level state of `test_probabilistic_models.py` after its
import-time code has run. -/
structure TestModuleState where
  torchAvailable : Bool
  loggedWarnings : List String
  models_cls_kwargs_errs : List ModelCase
  deriving DecidableEq

/-- The warning logged when the torch import fails. -/
def torchWarning : String := "Torch not available. TCN tests will be skipped."

/-- Import-time behaviour of the test module, as a function of the
outcome of `from ..models import RNNModel, TCNModel` /
`from darts.utils.likelihood_models import GaussianLikelihoodModel`:

```
try:
    ...imports...
    TORCH_AVAILABLE = True
except ImportError:
    logger.warning('Torch not available. TCN tests will be skipped.')
    TORCH_AVAILABLE = False
```

then `models_cls_kwargs_errs` is the base list, extended with the torch
cases only when `TORCH_AVAILABLE`. Only `ImportError` is caught; any
other exception escapes the module initialisation. -/
def testModuleInit : Except PyExc Unit → Except PyExc TestModuleState
  | Except.ok _ => Except.ok ⟨true, [], baseCases ++ torchCases⟩
  | Except.error PyExc.importError => Except.ok ⟨false, [torchWarning], baseCases⟩
  | Except.error (PyExc.otherExc s) => Except.error (PyExc.otherExc s)

/-! ### Helper lemmas -/

theorem Dict.lookup_insert_self (d : Dict) (k : String) (v : PyVal) :
    (d.insert k v).lookup k = Option.some v := by
  induction d with
  | nil => simp [Dict.insert, Dict.lookup]
  | cons p rest ih =>
    obtain ⟨k', v'⟩ := p
    by_cases hk : k' = k
    · simp [Dict.insert, Dict.lookup, hk]
    · simp [Dict.insert, Dict.lookup, hk, ih]

theorem Dict.lookup_insert_ne (d : Dict) (k : String) (v : PyVal) (k₀ : String)
    (hne : k ≠ k₀) : (d.insert k v).lookup k₀ = d.lookup k₀ := by
  induction d with
  | nil => simp [Dict.insert, Dict.lookup, hne]
  | cons p rest ih =>
    obtain ⟨k', v'⟩ := p
    by_cases hk : k' = k
    · subst hk
      simp [Dict.insert, Dict.lookup, hne]
    · simp [Dict.insert, Dict.lookup, hk, ih]

theorem Heap.read_write_self (h : Heap) (r : Ref) (d : Dict) (hr : r < h.size) :
    (h.write r d).read r = d := by
  simp [Heap.read, Heap.write, List.getD, List.getElem?_set_self, Heap.size] at *
  simp [List.getElem?_set_self hr]

theorem Heap.size_write (h : Heap) (r : Ref) (d : Dict) :
    (h.write r d).size = h.size := by
  simp [Heap.write, Heap.size]

/-- The heap after `RandomForest.__init__`'s straight-line body: the
caller's dictionary extended in place with the two hyperparameters. -/
theorem RandomForest.initCore_heap
    (lags lpc : Option LagsSpec) (lfc : Option LagsFutureSpec)
    (n m : Option Int) (r : Ref) (h : Heap) (hr : r < h.size) :
    (RandomForest.initCore lags lpc lfc n m r h).1.read r
      = ((h.read r).insert "n_estimators" (PyVal.ofOptInt n)).insert
          "max_depth" (PyVal.ofOptInt m) := by
  unfold RandomForest.initCore
  have h1 := Heap.read_write_self h r
    ((h.read r).insert "n_estimators" (PyVal.ofOptInt n)) hr
  rw [Heap.read_write_self _ r _ (by rw [Heap.size_write]; exact hr), h1]

/-- The keyword dictionary handed to `RandomForestRegressor(**kwargs)`:
the caller's dictionary after both in-place insertions, because `kwargs`
and `self.kwargs` alias the same object. -/
theorem RandomForest.initCore_model_kwargs
    (lags lpc : Option LagsSpec) (lfc : Option LagsFutureSpec)
    (n m : Option Int) (r : Ref) (h : Heap) (hr : r < h.size) :
    (RandomForest.initCore lags lpc lfc n m r h).2.2.model.kwargs
      = ((h.read r).insert "n_estimators" (PyVal.ofOptInt n)).insert
          "max_depth" (PyVal.ofOptInt m) := by
  have := RandomForest.initCore_heap lags lpc lfc n m r h hr
  unfold RandomForest.initCore at *
  exact this

theorem RandomForest.initCore_self
    (lags lpc : Option LagsSpec) (lfc : Option LagsFutureSpec)
    (n m : Option Int) (r : Ref) (h : Heap) :
    (RandomForest.initCore lags lpc lfc n m r h).2.1 = ⟨n, m, r⟩ := rfl

theorem parenBal_append (a b : List Char) :
    parenBal (a ++ b) = parenBal a + parenBal b := by
  induction a with
  | nil => simp [parenBal]
  | cons c cs ih => simp [parenBal, ih]; ring

theorem minBal_nonpos (s : List Char) : minBal s ≤ 0 := by
  cases s with
  | nil => simp [minBal]
  | cons c cs => simp [minBal]

theorem minBal_append (a b : List Char) :
    minBal (a ++ b) = min (minBal a) (parenBal a + minBal b) := by
  induction a with
  | nil =>
    have := minBal_nonpos b
    simp [minBal, parenBal]
    omega
  | cons c cs ih =>
    simp [minBal, parenBal, ih]
    omega

theorem parenNeutral_append (a b : List Char)
    (ha : parenNeutral a) (hb : parenNeutral b) : parenNeutral (a ++ b) := by
  obtain ⟨ha1, ha2⟩ := ha
  obtain ⟨hb1, hb2⟩ := hb
  constructor
  · rw [parenBal_append, ha1, hb1]; simp
  · rw [minBal_append, ha1, ha2, hb2]
    simp

/-! ### Claim theorems -/

/-- C1: for every call to the `RandomForest` constructor (with a valid
reference to the caller's keyword dictionary), the underlying
`RandomForestRegressor` is constructed with a keyword-argument set
consisting of the caller's extra keyword options together with entries
`n_estimators` and `max_depth` equal to the constructor's arguments,
even though the call site expands the original `kwargs` dictionary
rather than `self.kwargs` — the two alias the same object. -/
theorem regressor_kwargs_extended
    (lags lpc : Option LagsSpec) (lfc : Option LagsFutureSpec)
    (n_estimators max_depth : Option Int) (r : Ref) (h : Heap)
    (hr : r < h.size) :
    ((RandomForest.initCore lags lpc lfc n_estimators max_depth r h).2.2.model.kwargs.lookup
        "n_estimators" = Option.some (PyVal.ofOptInt n_estimators))
    ∧ ((RandomForest.initCore lags lpc lfc n_estimators max_depth r h).2.2.model.kwargs.lookup
        "max_depth" = Option.some (PyVal.ofOptInt max_depth))
    ∧ ∀ k : String, k ≠ "n_estimators" → k ≠ "max_depth" →
        (RandomForest.initCore lags lpc lfc n_estimators max_depth r h).2.2.model.kwargs.lookup
          k = (h.read r).lookup k := by
  rw [RandomForest.initCore_model_kwargs lags lpc lfc n_estimators max_depth r h hr]
  refine ⟨?_, Dict.lookup_insert_self _ _ _, ?_⟩
  · rw [Dict.lookup_insert_ne _ _ _ _ (by decide)]
    exact Dict.lookup_insert_self _ _ _
  · intro k hk1 hk2
    rw [Dict.lookup_insert_ne _ _ _ _ (Ne.symm hk2),
      Dict.lookup_insert_ne _ _ _ _ (Ne.symm hk1)]

/-- Witness for C1 at the constructor defaults (`n_estimators = 100`,
`max_depth = None`) with one caller-supplied extra option. -/
theorem regressor_kwargs_extended_witness :
    ((0 : Ref) < Heap.size [[("bootstrap", PyVal.bool true)]])
    ∧ ((RandomForest.initCore Option.none Option.none Option.none
          RandomForest.n_estimators_default RandomForest.max_depth_default
          0 [[("bootstrap", PyVal.bool true)]]).2.2.model.kwargs.lookup
        "n_estimators" = Option.some (PyVal.ofOptInt RandomForest.n_estimators_default))
    ∧ ((RandomForest.initCore Option.none Option.none Option.none
          RandomForest.n_estimators_default RandomForest.max_depth_default
          0 [[("bootstrap", PyVal.bool true)]]).2.2.model.kwargs.lookup
        "bootstrap" = (Heap.read [[("bootstrap", PyVal.bool true)]] 0).lookup "bootstrap") :=
  ⟨by decide,
   (regressor_kwargs_extended Option.none Option.none Option.none
      RandomForest.n_estimators_default RandomForest.max_depth_default
      0 [[("bootstrap", PyVal.bool true)]] (by decide)).1,
   (regressor_kwargs_extended Option.none Option.none Option.none
      RandomForest.n_estimators_default RandomForest.max_depth_default
      0 [[("bootstrap", PyVal.bool true)]] (by decide)).2.2
     "bootstrap" (by decide) (by decide)⟩

/-- C6: the constructor passes `lags`, `lags_past_covariates` and
`lags_future_covariates` unchanged to the `RegressionModel` base-class
constructor; the accepted shapes (integer count, explicit negative-lag
list, or past/future tuple for future covariates) are the types
`Option LagsSpec` and `Option LagsFutureSpec`. -/
theorem lags_forwarded_unchanged
    (lags lpc : Option LagsSpec) (lfc : Option LagsFutureSpec)
    (n m : Option Int) (r : Ref) (h : Heap) :
    ((RandomForest.initCore lags lpc lfc n m r h).2.2.lags = lags)
    ∧ ((RandomForest.initCore lags lpc lfc n m r h).2.2.lags_past_covariates = lpc)
    ∧ ((RandomForest.initCore lags lpc lfc n m r h).2.2.lags_future_covariates = lfc) :=
  ⟨rfl, rfl, rfl⟩

/-- C7: the wrapper performs no lag validation and installs no handler:
whenever the base-class constructor raises on the arguments it receives,
`RandomForest.__init__` raises exactly the same exception. -/
theorem superInit_error_propagates {β : Type}
    (superInit : SuperArgs → Except PyErr β)
    (lags lpc : Option LagsSpec) (lfc : Option LagsFutureSpec)
    (n m : Option Int) (r : Ref) (h : Heap) (e : PyErr)
    (he : superInit (RandomForest.initCore lags lpc lfc n m r h).2.2 = Except.error e) :
    RandomForest.init superInit lags lpc lfc n m r h = Except.error e := by
  simp only [RandomForest.init, he]

/-- Witness for C7: a base class rejecting a positive lag makes the
wrapper raise that very exception. -/
theorem superInit_error_propagates_witness :
    @RandomForest.init Unit
      (fun _ => Except.error "ValueError: every element of lags must be a negative integer")
      (Option.some (LagsSpec.list [3])) Option.none Option.none
      (Option.some 100) Option.none 0 [[]]
      = Except.error "ValueError: every element of lags must be a negative integer" :=
  superInit_error_propagates
    (fun _ => Except.error "ValueError: every element of lags must be a negative integer")
    (Option.some (LagsSpec.list [3])) Option.none Option.none
    (Option.some 100) Option.none 0 [[]] _ rfl

/-- C8: after `RandomForest.__init__` returns, the instance invariant
`self.kwargs['n_estimators'] == self.n_estimators` and
`self.kwargs['max_depth'] == self.max_depth` holds (the only other
operation in the file, `__str__`, is a pure function of the instance and
modifies nothing). -/
theorem kwargs_attr_invariant {β : Type}
    (superInit : SuperArgs → Except PyErr β)
    (lags lpc : Option LagsSpec) (lfc : Option LagsFutureSpec)
    (n m : Option Int) (r : Ref) (h : Heap)
    (h' : Heap) (self' : RFSelf) (b : β)
    (hr : r < h.size)
    (hok : RandomForest.init superInit lags lpc lfc n m r h
      = Except.ok (h', self', b)) :
    ((h'.read self'.kwargs).lookup "n_estimators"
        = Option.some (PyVal.ofOptInt self'.n_estimators))
    ∧ ((h'.read self'.kwargs).lookup "max_depth"
        = Option.some (PyVal.ofOptInt self'.max_depth)) := by
  simp only [RandomForest.init] at hok
  cases hsup : superInit (RandomForest.initCore lags lpc lfc n m r h).2.2 with
  | error e => rw [hsup] at hok; exact absurd hok (by simp)
  | ok b0 =>
    rw [hsup] at hok
    simp only [Except.ok.injEq, Prod.mk.injEq] at hok
    obtain ⟨hh, hs, -⟩ := hok
    subst hh
    rw [← hs, RandomForest.initCore_self]
    rw [RandomForest.initCore_heap lags lpc lfc n m r h hr]
    refine ⟨?_, Dict.lookup_insert_self _ _ _⟩
    rw [Dict.lookup_insert_ne _ _ _ _ (by decide)]
    exact Dict.lookup_insert_self _ _ _

/-- Witness for C8 on a concrete fresh dictionary. -/
theorem kwargs_attr_invariant_witness :
    ((0 : Ref) < Heap.size [[]])
    ∧ ((Heap.read [[("n_estimators", PyVal.int 100), ("max_depth", PyVal.none)]]
          ((⟨Option.some 100, Option.none, 0⟩ : RFSelf).kwargs)).lookup "n_estimators"
        = Option.some (PyVal.ofOptInt (Option.some 100)))
    ∧ ((Heap.read [[("n_estimators", PyVal.int 100), ("max_depth", PyVal.none)]]
          ((⟨Option.some 100, Option.none, 0⟩ : RFSelf).kwargs)).lookup "max_depth"
        = Option.some (PyVal.ofOptInt Option.none)) :=
  ⟨by decide,
   kwargs_attr_invariant (fun _ => Except.ok ())
     Option.none Option.none Option.none (Option.some 100) Option.none 0 [[]]
     [[("n_estimators", PyVal.int 100), ("max_depth", PyVal.none)]]
     ⟨Option.some 100, Option.none, 0⟩ () (by decide) rfl⟩

/-- C9: for every `RandomForest` instance whose interpolated attribute
renderings are parenthesis-neutral (as the renderings of lag lists,
tuples, integers and `None` are), `__str__` returns a string beginning
with `RandomForest(lags=` in which the opening parenthesis is never
matched by a closing one: scanning the remainder, the balance never dips
below the level opened by that parenthesis. -/
theorem str_unclosed_paren (a b c d e f : String)
    (ha : parenNeutral a.data) (hb : parenNeutral b.data)
    (hc : parenNeutral c.data) (hd : parenNeutral d.data)
    (he : parenNeutral e.data) (hf : parenNeutral f.data) :
    (∃ t : List Char,
      (RandomForest.str a b c d e f).data = "RandomForest(lags=".data ++ t)
    ∧ ∃ rest : List Char,
        (RandomForest.str a b c d e f).data = "RandomForest(".data ++ rest
        ∧ minBal rest = 0 := by
  have hdata : (RandomForest.str a b c d e f).data
      = "RandomForest(lags=".data ++ (a.data ++ (", lags_past_covariates=".data
        ++ (b.data ++ (", ".data ++ ("lags_historical_covariates=".data
        ++ (c.data ++ (", ".data ++ ("lags_future_covariates=".data
        ++ (d.data ++ (", ".data ++ ("n_estimators=".data
        ++ (e.data ++ (", max_depth=".data ++ f.data))))))))))))) := by
    simp [RandomForest.str, String.data_append, List.append_assoc]
  refine ⟨⟨_, hdata⟩, ?_⟩
  have hsplit : ("RandomForest(lags=".data : List Char)
      = "RandomForest(".data ++ "lags=".data := rfl
  rw [hsplit, List.append_assoc] at hdata
  refine ⟨_, hdata, ?_⟩
  have n01 := parenNeutral_append (", max_depth=".data) f.data (by decide) hf
  have n02 := parenNeutral_append e.data _ he n01
  have n03 := parenNeutral_append ("n_estimators=".data) _ (by decide) n02
  have n04 := parenNeutral_append (", ".data) _ (by decide) n03
  have n05 := parenNeutral_append d.data _ hd n04
  have n06 := parenNeutral_append ("lags_future_covariates=".data) _ (by decide) n05
  have n07 := parenNeutral_append (", ".data) _ (by decide) n06
  have n08 := parenNeutral_append c.data _ hc n07
  have n09 := parenNeutral_append ("lags_historical_covariates=".data) _ (by decide) n08
  have n10 := parenNeutral_append (", ".data) _ (by decide) n09
  have n11 := parenNeutral_append b.data _ hb n10
  have n12 := parenNeutral_append (", lags_past_covariates=".data) _ (by decide) n11
  have n13 := parenNeutral_append a.data _ ha n12
  have n14 := parenNeutral_append ("lags=".data) _ (by decide) n13
  exact n14.2

/-- Witness for C9 with concrete attribute renderings. -/
theorem str_unclosed_paren_witness :
    (parenNeutral "[-1, -2]".data ∧ parenNeutral "None".data
      ∧ parenNeutral "(3, 5)".data ∧ parenNeutral "100".data)
    ∧ ((∃ t : List Char,
        (RandomForest.str "[-1, -2]" "None" "None" "(3, 5)" "100" "None").data
          = "RandomForest(lags=".data ++ t)
      ∧ ∃ rest : List Char,
          (RandomForest.str "[-1, -2]" "None" "None" "(3, 5)" "100" "None").data
            = "RandomForest(".data ++ rest
          ∧ minBal rest = 0) :=
  ⟨⟨by decide, by decide, by decide, by decide⟩,
   str_unclosed_paren "[-1, -2]" "None" "None" "(3, 5)" "100" "None"
     (by decide) (by decide) (by decide) (by decide) (by decide) (by decide)⟩

/-- C5: when the torch import raises `ImportError` at module import
time, the exception is caught, the warning is logged, `TORCH_AVAILABLE`
becomes `False`, and the tested models are only `ExponentialSmoothing`
and `ARIMA` (the torch cases are excluded); any exception class other
than `ImportError` is not caught and escapes module initialisation. -/
theorem import_error_handling :
    (testModuleInit (Except.error PyExc.importError)
      = Except.ok ⟨false, [torchWarning], baseCases⟩)
    ∧ (baseCases.map ModelCase.cls = [ModelCls.ExponentialSmoothing, ModelCls.ARIMA])
    ∧ ∀ s : String, testModuleInit (Except.error (PyExc.otherExc s))
        = Except.error (PyExc.otherExc s) :=
  ⟨rfl, rfl, fun _ => rfl⟩

end Darts
